import Mathlib

/-!
Verification development for the `battery_engine_pro3` dispatch-and-cost
engine.  Every definition below is a shallow embedding of the Python source
(`battery_engine_pro3/…`); the few definitions that instead follow the
specification's wording (for comparison against the code) carry the word
`spec` in their name and say so in their doc comment.

Numeric modelling: Python floats are embedded as elements of a linear
ordered field, instantiated at `ℚ` for concrete evaluation and at `ℝ` for
the battery model, whose construction takes a real square root
(`eta ** 0.5`).  Properties proved here do not depend on floating-point
rounding.
-/

/-- Result of one cost computation (`types.ScenarioResult`). -/
structure ScenarioResult (α : Type) where
  import_kwh : α
  export_kwh : α
  total_cost_eur : α
deriving DecidableEq, Repr

/-- Billing parameters (`types.TariffConfig`), field for field. -/
structure TariffConfig (α : Type) where
  country : String
  current_tariff : String
  vastrecht_year : α
  p_enkel_imp : α
  p_enkel_exp : α
  p_dag : α
  p_nacht : α
  p_exp_dn : α
  p_export_dyn : α
  dynamic_prices : Option (List α)
  feedin_monthly_cost : α
  feedin_cost_per_kwh : α
  feedin_free_kwh : α
  feedin_price_after_free : α
  inverter_power_kw : α
  inverter_cost_per_kw : α
  capacity_tariff_kw : α
  allow_grid_charge : Bool := false
  saldering : Bool := true
deriving DecidableEq, Repr

/-- The three tariff strings `"enkel"`, `"dag_nacht"`, `"dynamisch"` that
`CostEngine.compute_cost` recognises.  Any other string raises
`ValueError` in the source; the embedding restricts the argument to the
recognised variants (no claim concerns the unknown-variant error). -/
inductive TariffType where
  | enkel
  | dagNacht
  | dynamisch
deriving DecidableEq, Repr

/-- Average dynamic price used by the `"dynamisch"` branch of
`CostEngine.compute_cost`: the arithmetic mean of `cfg.dynamic_prices`,
falling back to `cfg.p_enkel_imp` when the series is `None` or empty. -/
def dynPriceAvg {α : Type} [LinearOrderedField α] (cfg : TariffConfig α) : α :=
  match cfg.dynamic_prices with
  | none => cfg.p_enkel_imp
  | some ps => if ps.length = 0 then cfg.p_enkel_imp else ps.sum / (ps.length : α)

/-- `CostEngine.compute_cost` (cost_engine.py lines 27-115).
Sections in source order: (1) energy prices per tariff variant,
(2) feed-in costs, (3) inverter cost, (4) BE capacity tariff,
(5) standing charge, (6) total. -/
def computeCost {α : Type} [LinearOrderedField α] (cfg : TariffConfig α)
    (import_profile_kwh export_profile_kwh : List α) (tariff_type : TariffType)
    (peak_kw_before peak_kw_after : Option α) : ScenarioResult α :=
  let total_import_kwh := import_profile_kwh.sum
  let total_export_kwh := export_profile_kwh.sum
  let cost_energy :=
    match tariff_type with
    | .enkel => total_import_kwh * cfg.p_enkel_imp
    | .dagNacht => total_import_kwh * (1/2 * cfg.p_dag + 1/2 * cfg.p_nacht)
    | .dynamisch => total_import_kwh * dynPriceAvg cfg
  let revenue_energy :=
    match tariff_type with
    | .enkel => total_export_kwh * cfg.p_enkel_exp
    | .dagNacht => total_export_kwh * cfg.p_exp_dn
    | .dynamisch => total_export_kwh * cfg.p_export_dyn
  let energy_net := cost_energy - revenue_energy
  let feedin_cost := cfg.feedin_monthly_cost * 12
      + max 0 (total_export_kwh - cfg.feedin_free_kwh) * cfg.feedin_price_after_free
  let inverter_cost := cfg.inverter_power_kw * cfg.inverter_cost_per_kw
  let capacity_tariff :=
    match peak_kw_before, peak_kw_after with
    | some pb, some pa => if cfg.country = "BE" then (pa - pb) * cfg.capacity_tariff_kw else 0
    | _, _ => 0
  let vastrecht := cfg.vastrecht_year
  { import_kwh := total_import_kwh
    export_kwh := total_export_kwh
    total_cost_eur := energy_net + feedin_cost + inverter_cost + capacity_tariff + vastrecht }

/-- Battery parameters with the fields derived by
`BatteryModel.__post_init__` (battery_model.py). -/
structure BatteryModel (α : Type) where
  E_cap : α
  P_max : α
  dod : α
  eta : α
  initial_soc_frac : α
  capacity_kwh : α
  power_kw : α
  eta_charge : α
  eta_discharge : α
  E_min : α
  E_max : α
  initial_soc_kwh : α
deriving Repr

/-- `BatteryModel.__post_init__` (battery_model.py lines 44-78): inputs are
clamped (negative capacity/power/DoD to 0, DoD above 1 to 1, non-positive
round-trip efficiency to 1, start fraction into [0,1]) — the construction
never raises — and the derived fields are computed from the clamped
values.  Python's `eta ** 0.5` on the (positive) clamped efficiency is the
real square root. -/
noncomputable def mkBatteryModel (E_cap P_max dod eta : ℝ)
    (initial_soc_frac : ℝ := 1) : BatteryModel ℝ :=
  let E_cap1 := if E_cap < 0 then 0 else E_cap
  let P_max1 := if P_max < 0 then 0 else P_max
  let dod1 := if dod < 0 then 0 else dod
  let dod2 := if dod1 > 1 then 1 else dod1
  let eta1 := if eta ≤ 0 then 1 else eta
  let f1 := if initial_soc_frac < 0 then 0 else initial_soc_frac
  let f2 := if f1 > 1 then 1 else f1
  let etaSplit := Real.sqrt eta1
  let E_max := E_cap1
  let E_min := E_cap1 * (1 - dod2)
  { E_cap := E_cap1
    P_max := P_max1
    dod := dod2
    eta := eta1
    initial_soc_frac := f2
    capacity_kwh := E_cap1
    power_kw := P_max1
    eta_charge := etaSplit
    eta_discharge := etaSplit
    E_min := E_min
    E_max := E_max
    initial_soc_kwh := E_min + f2 * (E_max - E_min) }

/-- Output record of one simulation (`battery_simulator.SimulationResult`). -/
structure SimulationResult (α : Type) where
  import_kwh : α
  export_kwh : α
  import_profile : List α
  export_profile : List α
  soc_profile : List α
  dt_hours : α

/-- `BatterySimulator.simulate_no_battery` (battery_simulator.py lines
62-81): per-step net balance; the SoC track is all zeros of the load's
length (`zip` truncates the flow profiles to the shorter series). -/
def simulateNoBattery {α : Type} [LinearOrderedField α]
    (loadVals pvVals : List α) (dt : α) : SimulationResult α :=
  let pairs := loadVals.zip pvVals
  let import_p := pairs.map (fun lp => max 0 (lp.1 - lp.2))
  let export_p := pairs.map (fun lp => max 0 (lp.2 - lp.1))
  { import_kwh := import_p.sum
    export_kwh := export_p.sum
    import_profile := import_p
    export_profile := export_p
    soc_profile := List.replicate loadVals.length 0
    dt_hours := dt }

/-- One iteration of the `simulate_with_battery` loop (battery_simulator.py
lines 105-185), returning the step's grid import, export and the SoC after
the final numeric guardrail clamp.  The two trailing resets of
`load_remaining`/`pv_surplus` in the source are dead assignments (the loop
ends) and are not represented. -/
def stepWithBattery {α : Type} [LinearOrderedField α] (batt : BatteryModel α)
    (dt eReserve : α) (hasPrices : Bool) (priceLow? priceHigh? : Option α)
    (allowGridCharge : Bool) (soc load_kwh pv_kwh : α) (price? : Option α) :
    α × α × α :=
  let load_remaining := max 0 (load_kwh - pv_kwh)
  let pv_surplus := max 0 (pv_kwh - load_kwh)
  let allow_discharge : Bool :=
    if hasPrices then
      match price?, priceHigh? with
      | some pr, some ph =>
        if pr < ph then (if soc ≤ eReserve then false else true) else true
      | _, _ => true
    else true
  let d1 :=
    if allow_discharge = true ∧ load_remaining > 0 ∧ soc > eReserve then
      let max_deliverable := min (batt.P_max * dt) ((soc - batt.E_min) * batt.eta_discharge)
      let delivered := min load_remaining max_deliverable
      (soc - delivered / batt.eta_discharge, load_remaining - delivered)
    else (soc, load_remaining)
  let soc1 := d1.1
  let load_remaining1 := d1.2
  let c1 :=
    if pv_surplus > 0 ∧ soc1 < batt.E_max then
      let charge := min pv_surplus (min (batt.P_max * dt) (batt.E_max - soc1))
      (soc1 + charge * batt.eta_charge, pv_surplus - charge)
    else (soc1, pv_surplus)
  let soc2 := c1.1
  let pv_surplus1 := c1.2
  let g1 :=
    if allowGridCharge = true then
      match price?, priceLow? with
      | some pr, some pl =>
        if pr < pl then
          let target_soc := batt.E_min + 4/5 * (batt.E_max - batt.E_min)
          if soc2 < target_soc then
            let charge := min (batt.P_max * dt) (target_soc - soc2)
            (soc2 + charge * batt.eta_charge, charge)
          else (soc2, 0)
        else (soc2, 0)
      | _, _ => (soc2, 0)
    else (soc2, 0)
  let soc3 := g1.1
  let import_kwh := g1.2 + load_remaining1
  let export_kwh := pv_surplus1
  (import_kwh, export_kwh, min (max soc3 batt.E_min) batt.E_max)

/-- The `simulate_with_battery` loop over the zipped load/PV pairs,
walking the dynamic-price list in step (`prices[i] if i < len(prices)`
becomes the head of the remaining price list).  Returns the import,
export and SoC profiles in step order. -/
def simWithBatteryLoop {α : Type} [LinearOrderedField α] (batt : BatteryModel α)
    (dt eReserve : α) (hasPrices : Bool) (priceLow? priceHigh? : Option α)
    (allowGridCharge : Bool) :
    α → List (α × α) → List α → List α × List α × List α
  | _, [], _ => ([], [], [])
  | soc, lp :: rest, prices =>
    let step := stepWithBattery batt dt eReserve hasPrices priceLow? priceHigh?
      allowGridCharge soc lp.1 lp.2 prices.head?
    let tail := simWithBatteryLoop batt dt eReserve hasPrices priceLow? priceHigh?
      allowGridCharge step.2.2 rest prices.tail
    (step.1 :: tail.1, step.2.1 :: tail.2.1, step.2.2 :: tail.2.2)

/-- Price thresholds from `BatterySimulator.__init__` (battery_simulator.py
lines 52-59): the P30/P75 entries of the sorted price list.  Python's
`int(0.30 * n)` uses binary floating point and can land one index away
from `3*n/10` for some `n`; every property proved below is independent of
which element is selected. -/
def pricePercentiles {α : Type} [LinearOrderedField α] (prices? : Option (List α)) :
    Option α × Option α :=
  match prices? with
  | none => (none, none)
  | some ps =>
    if ps.length = 0 then (none, none)
    else
      let sorted := ps.insertionSort (· ≤ ·)
      (sorted.getD (3 * ps.length / 10) 0, sorted.getD (3 * ps.length / 4) 0)

/-- `BatterySimulator.simulate_with_battery` (battery_simulator.py lines
87-204).  With no battery it falls back to `simulate_no_battery`;
otherwise it threads the SoC through `stepWithBattery`, starting from the
model's initial SoC, with the strategic reserve
`E_min + 0.20 * (E_max - E_min)`. -/
def simulateWithBattery {α : Type} [LinearOrderedField α]
    (battery? : Option (BatteryModel α)) (loadVals pvVals : List α) (dt : α)
    (prices? : Option (List α)) (allowGridCharge : Bool) : SimulationResult α :=
  match battery? with
  | none => simulateNoBattery loadVals pvVals dt
  | some batt =>
    let eReserve := batt.E_min + 1/5 * (batt.E_max - batt.E_min)
    let hasPrices := match prices? with
      | none => false
      | some ps => decide (ps.length ≠ 0)
    let pcts := pricePercentiles prices?
    let prof := simWithBatteryLoop batt dt eReserve hasPrices pcts.1 pcts.2
      allowGridCharge batt.initial_soc_kwh (loadVals.zip pvVals)
      (prices?.getD [])
    { import_kwh := prof.1.sum
      export_kwh := prof.2.1.sum
      import_profile := prof.1
      export_profile := prof.2.1
      soc_profile := prof.2.2
      dt_hours := dt }

/-- `PeakOptimizer.compute_monthly_peaks` (peak_optimizer.py lines 22-42).
Timestamps enter the source only through `timestamps[i].month`; they are
embedded as the list of 1-based month numbers.  The source indexes
`pv.values[i]` and `timestamps[i]` directly (an `IndexError` if a list is
shorter than the load series); the embedding uses `getD`, and every
theorem below assumes the lengths agree. -/
def computeMonthlyPeaks {α : Type} [LinearOrderedField α]
    (loadVals pvVals : List α) (months : List ℕ) : List α :=
  (List.range loadVals.length).foldl
    (fun peaks i =>
      let net0 := loadVals.getD i 0 - pvVals.getD i 0
      let net := if net0 < 0 then 0 else net0
      let m := months.getD i 1 - 1
      if net > peaks.getD m 0 then peaks.set m net else peaks)
    (List.replicate 12 0)

/-- `PeakOptimizer.compute_monthly_targets` (peak_optimizer.py lines 44-53). -/
def computeMonthlyTargets {α : Type} [LinearOrderedField α]
    (baseline_peaks : List α) (reduction_factor : α) : List α :=
  baseline_peaks.map (fun p => p * reduction_factor)

/-- Output tuple of `PeakOptimizer.simulate_with_peak_shaving`. -/
structure PeakShavingResult (α : Type) where
  monthly_peaks_after : List α
  import_profile : List α
  export_profile : List α
  soc_profile : List α

/-- One iteration of the `simulate_with_peak_shaving` loop
(peak_optimizer.py lines 117-199): returns the step's import, export and
the SoC after the step.  `month` is the already-clamped 0-based month
index and `socMinRequired` the step's `soc_plan` entry. -/
def stepPeakShaving {α : Type} [LinearOrderedField α] (batt : BatteryModel α)
    (dt target_peak socMinRequired soc load_kw pv_kw : α) : α × α × α :=
  let net_kw := load_kw - pv_kw
  if net_kw > target_peak then
    let required_kw := net_kw - target_peak
    let discharge_kw := min required_kw batt.power_kw
    let dfb :=
      if batt.eta_discharge > 0 then discharge_kw * dt / batt.eta_discharge else 0
    let lower_bound := max batt.E_min socMinRequired
    let dfb1 := if soc - dfb < lower_bound then max 0 (soc - lower_bound) else dfb
    let real_kw := if dt > 0 then dfb1 * batt.eta_discharge / dt else 0
    let socN := soc - dfb1
    let grid_kw := load_kw - pv_kw - real_kw
    let grid_kw1 := if grid_kw < 0 then 0 else grid_kw
    (grid_kw1, 0, socN)
  else
    let net_surplus_kw := pv_kw - load_kw
    if net_surplus_kw > 0 then
      let charge_kw := min net_surplus_kw batt.power_kw
      let charge_kwh := charge_kw * dt * batt.eta_charge
      let charge_kwh1 :=
        if soc + charge_kwh > batt.E_max then max 0 (batt.E_max - soc) else charge_kwh
      let socN := soc + charge_kwh1
      let used_kw_equiv :=
        if dt > 0 ∧ batt.eta_charge > 0 then charge_kwh1 / dt / batt.eta_charge else 0
      let export_kw := net_surplus_kw - used_kw_equiv
      let export_kw1 := if export_kw < 0 then 0 else export_kw
      (0, export_kw1, socN)
    else
      (-net_surplus_kw, 0, soc)

/-- The `simulate_with_peak_shaving` loop over the step indices, threading
the SoC and incrementally updating the 12-entry `monthly_peaks_after`
array exactly as the source does. -/
def peakShavingLoop {α : Type} [LinearOrderedField α] (batt : BatteryModel α)
    (loadVals pvVals : List α) (months : List ℕ) (dt : α)
    (monthlyTargets socPlan : List α) :
    α → List α → List ℕ → List α × List α × List α × List α
  | _, peaks, [] => (peaks, [], [], [])
  | soc, peaks, t :: ts =>
    let mraw := months.getD t 1 - 1
    let month := if mraw > 11 then 0 else mraw
    let target_peak :=
      if month < monthlyTargets.length then monthlyTargets.getD month 0
      else monthlyTargets.getD 0 0
    let step := stepPeakShaving batt dt target_peak (socPlan.getD t 0) soc
      (loadVals.getD t 0) (pvVals.getD t 0)
    let peaks1 := if step.1 > peaks.getD month 0 then peaks.set month step.1 else peaks
    let tail := peakShavingLoop batt loadVals pvVals months dt monthlyTargets socPlan
      step.2.2 peaks1 ts
    (tail.1, step.1 :: tail.2.1, step.2.1 :: tail.2.2.1, step.2.2 :: tail.2.2.2)

/-- `PeakOptimizer.simulate_with_peak_shaving` (peak_optimizer.py lines
57-199).  When `soc_plan` is `None` the source substitutes `[E_min] * n`;
a supplied plan is indexed per step (`soc_plan[t]`, embedded with `getD`). -/
def simulateWithPeakShaving {α : Type} [LinearOrderedField α]
    (loadVals pvVals : List α) (months : List ℕ) (dt : α)
    (batt : BatteryModel α) (monthlyTargets : List α)
    (socPlan? : Option (List α)) : PeakShavingResult α :=
  let n := loadVals.length
  let socPlan := socPlan?.getD (List.replicate n batt.E_min)
  let r := peakShavingLoop batt loadVals pvVals months dt monthlyTargets socPlan
    batt.initial_soc_kwh (List.replicate 12 0) (List.range n)
  { monthly_peaks_after := r.1
    import_profile := r.2.1
    export_profile := r.2.2.1
    soc_profile := r.2.2.2 }

/-- `PeakShavingPlanner.compute_required_reserve` (peak_optimizer.py
lines 213-224). -/
def computeRequiredReserve {α : Type} [LinearOrderedField α]
    (baseline_peak_kw target_peak_kw timestep_hours : α) : α :=
  max 0 (baseline_peak_kw - target_peak_kw) * timestep_hours

/-- `PeakShavingPlanner.plan_monthly_soc_targets` (peak_optimizer.py lines
226-260): per step, `E_min` plus the month's required reserve. -/
def planMonthlySocTargets {α : Type} [LinearOrderedField α]
    (loadVals : List α) (months : List ℕ) (dt : α) (batt : BatteryModel α)
    (baseline_peaks target_peaks : List α) : List α :=
  let monthly_reserve := (List.range 12).map (fun m =>
    computeRequiredReserve (baseline_peaks.getD m 0) (target_peaks.getD m 0) dt)
  (List.range loadVals.length).map (fun i =>
    let mraw := months.getD i 1 - 1
    let month := if mraw > 11 then 0 else mraw
    batt.E_min + monthly_reserve.getD month 0)

/-- A time series (`types.TimeSeries`).  The datetime timestamps are
embedded as hour offsets from the fixed start 2025-01-01 00:00 used by
`BatteryEnginePro3.compute` (the only producer of timestamps on the
scenario path, which never reads them back). -/
structure TimeSeries (α : Type) where
  timestamps : List α
  values : List α
  dt_hours : α

/-- Battery request parameters (`types.BatteryConfig`). -/
structure BatteryConfig (α : Type) where
  E : α
  P : α
  DoD : α
  eta_rt : α
  degradation_per_year : α
  investment_eur : α
  lifetime_years : ℕ := 15

/-- Peak-shaving info of the result record (`types.PeakInfo`). -/
structure PeakInfo (α : Type) where
  monthly_before : List α
  monthly_after : List α
deriving DecidableEq, Repr

/-- `_normalize_profile` (dynamic_prices.py lines 4-8). -/
def normalizeProfile {α : Type} [LinearOrderedField α] (p : List α) : List α :=
  let avg := if p.length = 0 then 1 else p.sum / (p.length : α)
  if avg ≤ 0 then p.map (fun _ => 1) else p.map (fun x => x / avg)

/-- `_fallback_hourly_profile` (dynamic_prices.py lines 10-27): the
hard-coded 24-hour reference curve, normalized to mean 1. -/
def fallbackHourlyProfile {α : Type} [LinearOrderedField α] : List α :=
  normalizeProfile
    [0.75, 0.72, 0.70, 0.70, 0.72, 0.78,
     0.95, 1.05, 1.10,
     1.02, 0.98, 0.95,
     0.92, 0.95, 0.98,
     1.05, 1.15, 1.25,
     1.35, 1.45, 1.40,
     1.20, 1.00, 0.85]

/-- `build_dynamic_prices_hybrid` (dynamic_prices.py lines 29-65).
Historic prices are used only when non-empty and exactly `n_steps` long;
otherwise the 24-hour fallback profile is tiled by
`hour_of_day = int((i * dt_hours) % 24)` and scaled by the average import
price. -/
def buildDynamicPricesHybrid {α : Type} [LinearOrderedField α] [FloorRing α]
    (n_steps : ℕ) (dt_hours avg_import_price : α)
    (historic_prices : Option (List α)) : List α × String :=
  let avg := if avg_import_price ≤ 0 then 1/100 else avg_import_price
  match historic_prices with
  | some hs =>
    if hs.length ≠ 0 ∧ hs.length = n_steps then (hs, "historic")
    else
      let prof24 : List α := fallbackHourlyProfile
      let dt1 := if dt_hours ≤ 0 then 1 else dt_hours
      ((List.range n_steps).map (fun i =>
        avg * prof24.getD ((Int.toNat ⌊(i : α) * dt1⌋) % 24) 1), "fallback_profile")
  | none =>
    let prof24 : List α := fallbackHourlyProfile
    let dt1 := if dt_hours ≤ 0 then 1 else dt_hours
    ((List.range n_steps).map (fun i =>
      avg * prof24.getD ((Int.toNat ⌊(i : α) * dt1⌋) % 24) 1), "fallback_profile")

/-- The part of the record returned by `ScenarioRunner.run`
(scenario_runner.py lines 313-453) that the verified properties refer to.
The per-tariff dictionaries keyed by the three tariff strings are embedded
as functions on `TariffType`.  The advisory fields of the returned dict
(monthly cost breakdowns, ROI projections, the energy-profile summary and
the battery assessment) are pure functions of the same inputs that never
read or write the tariff configuration; they are omitted here because no
verified property mentions them. -/
structure RunResult (α : Type) where
  A1 : ScenarioResult α
  A1_per_tariff : TariffType → ScenarioResult α
  B1 : TariffType → ScenarioResult α
  C1 : TariffType → ScenarioResult α
  peaks : PeakInfo α

/-- Selection `A1_per_tariff.get(current_tariff, A1_per_tariff["enkel"])`
(scenario_runner.py line 171): unknown tariff strings fall back to
`"enkel"`. -/
def selectTariff {α : Type} (perTariff : TariffType → ScenarioResult α)
    (current : String) : ScenarioResult α :=
  if current = "enkel" then perTariff .enkel
  else if current = "dag_nacht" then perTariff .dagNacht
  else if current = "dynamisch" then perTariff .dynamisch
  else perTariff .enkel

/-- `ScenarioRunner.run` (scenario_runner.py lines 150-453).  The source
mutates `self.tariff_cfg.saldering` in place (`True` before the A1 costs,
`False` before the B1/C1 costs, line 158 and line 174); the embedding
threads the configuration explicitly and returns, next to the result
record, the configuration object as it stands when `run` returns.  All
cost calls pass no peak arguments (the source never supplies
`peak_kw_before`/`peak_kw_after`), and both branches of the C1 section
build `PeakInfo` from two empty lists (lines 216 and 310). -/
noncomputable def scenarioRun (load pv : TimeSeries ℝ) (cfg : TariffConfig ℝ)
    (batt? : Option (BatteryConfig ℝ)) : RunResult ℝ × TariffConfig ℝ :=
  let A1_sim := simulateNoBattery load.values pv.values load.dt_hours
  let cfgA := {cfg with saldering := true}
  let A1_per_tariff : TariffType → ScenarioResult ℝ := fun t =>
    computeCost cfgA A1_sim.import_profile A1_sim.export_profile t none none
  let A1 := selectTariff A1_per_tariff cfg.current_tariff
  let cfgB := {cfgA with saldering := false}
  let B1 : TariffType → ScenarioResult ℝ := fun t =>
    computeCost cfgB A1_sim.import_profile A1_sim.export_profile t none none
  match batt? with
  | none =>
    ({ A1 := A1, A1_per_tariff := A1_per_tariff, B1 := B1, C1 := B1
       peaks := { monthly_before := [], monthly_after := [] } }, cfgB)
  | some bc =>
    let battery_model := mkBatteryModel bc.E bc.P bc.DoD bc.eta_rt (1/2)
    let sim_res_pv_only := simulateWithBattery (some battery_model)
      load.values pv.values load.dt_hours none false
    let avg_import_price :=
      if cfgB.current_tariff ≠ "dynamisch" then cfgB.p_enkel_imp
      else cfgB.p_export_dyn + (cfgB.p_enkel_imp - cfgB.p_export_dyn)
    let prices_dyn := (buildDynamicPricesHybrid load.values.length load.dt_hours
      avg_import_price cfgB.dynamic_prices).1
    let sim_res_dyn := simulateWithBattery (some battery_model)
      load.values pv.values load.dt_hours (some prices_dyn) cfgB.allow_grid_charge
    let C1 : TariffType → ScenarioResult ℝ := fun t =>
      match t with
      | .dynamisch =>
        computeCost cfgB sim_res_dyn.import_profile sim_res_dyn.export_profile
          .dynamisch none none
      | t =>
        computeCost cfgB sim_res_pv_only.import_profile sim_res_pv_only.export_profile
          t none none
    ({ A1 := A1, A1_per_tariff := A1_per_tariff, B1 := B1, C1 := C1
       peaks := { monthly_before := [], monthly_after := [] } }, cfgB)

/-- Request body of the `/compute_v3` endpoint (`engine.ComputeV3Input`). -/
structure ComputeV3Input where
  load_kwh : List ℝ
  pv_kwh : List ℝ
  prices_dyn : Option (List ℝ)
  p_enkel_imp : ℝ
  p_enkel_exp : ℝ
  p_dag : ℝ
  p_nacht : ℝ
  p_exp_dn : ℝ
  p_export_dyn : ℝ
  E : ℝ
  P : ℝ
  DoD : ℝ
  eta_rt : ℝ
  vastrecht : ℝ
  battery_cost : ℝ
  battery_degradation : ℝ
  feedin_monthly_cost : ℝ
  feedin_cost_per_kwh : ℝ
  feedin_free_kwh : ℝ
  feedin_price_after_free : ℝ
  inverter_power_kw : ℝ
  inverter_cost_per_kw_year : ℝ
  capacity_tariff_kw_year : ℝ
  current_tariff : String
  country : String

/-- Steps 1-2 of `BatteryEnginePro3.compute` (engine.py lines 72-91):
empty-input check, truncation of both series to the shorter length,
resolution detection (`0.25 h` for at least 30000 steps, else `1.0 h`) and
timestamp generation from the fixed start 2025-01-01 (embedded as hour
offsets `dt * i` from that start). -/
noncomputable def prepareSeries (load_kwh pv_kwh : List ℝ) :
    Option (TimeSeries ℝ × TimeSeries ℝ) :=
  if load_kwh = [] ∨ pv_kwh = [] then none
  else
    let n := min load_kwh.length pv_kwh.length
    let load_vals := load_kwh.take n
    let pv_vals := pv_kwh.take n
    let dt : ℝ := if 30000 ≤ n then 1/4 else 1
    let timestamps := (List.range n).map (fun i => dt * (i : ℝ))
    some (⟨timestamps, load_vals, dt⟩, ⟨timestamps, pv_vals, dt⟩)

/-- `BatteryEnginePro3.compute` (engine.py lines 63-152): series
preparation, the dynamic-price passthrough (kept only when non-empty and
exactly `n` entries long), construction of `TariffConfig` and
`BatteryConfig`, and the `ScenarioRunner.run` call.  The source returns
the error dict `{"error": "LOAD_OR_PV_EMPTY"}` for empty input, embedded
as `Except.error`. -/
noncomputable def computeV3 (inp : ComputeV3Input) : Except String (RunResult ℝ) :=
  match prepareSeries inp.load_kwh inp.pv_kwh with
  | none => .error "LOAD_OR_PV_EMPTY"
  | some (load_ts, pv_ts) =>
    let n := load_ts.values.length
    let dyn_prices : Option (List ℝ) :=
      match inp.prices_dyn with
      | some ps => if ps.length ≠ 0 ∧ ps.length = n then some ps else none
      | none => none
    let tariff_cfg : TariffConfig ℝ :=
      { country := inp.country
        current_tariff := inp.current_tariff
        vastrecht_year := inp.vastrecht
        p_enkel_imp := inp.p_enkel_imp
        p_enkel_exp := inp.p_enkel_exp
        p_dag := inp.p_dag
        p_nacht := inp.p_nacht
        p_exp_dn := inp.p_exp_dn
        p_export_dyn := inp.p_export_dyn
        dynamic_prices := dyn_prices
        feedin_monthly_cost := inp.feedin_monthly_cost
        feedin_cost_per_kwh := inp.feedin_cost_per_kwh
        feedin_free_kwh := inp.feedin_free_kwh
        feedin_price_after_free := inp.feedin_price_after_free
        inverter_power_kw := inp.inverter_power_kw
        inverter_cost_per_kw := inp.inverter_cost_per_kw_year
        capacity_tariff_kw := inp.capacity_tariff_kw_year }
    let batt_cfg : BatteryConfig ℝ :=
      { E := inp.E
        P := inp.P
        DoD := inp.DoD
        eta_rt := inp.eta_rt
        degradation_per_year := inp.battery_degradation
        investment_eur := inp.battery_cost }
    .ok (scenarioRun load_ts pv_ts tariff_cfg (some batt_cfg)).1

/-!
Companion definitions that follow the specification's wording, for
comparison against the embedded code.  Each is named `spec…` and is used
only to state refutations or refinements.
-/

/-- The flat-tariff net-metering formula as the specification words it:
`max(Σimport − Σexport, 0) × p_import + min(Σimport − Σexport, 0) × p_export`. -/
def specFlatNetMeteredEnergyCost {α : Type} [LinearOrderedField α]
    (total_import total_export p_import p_export : α) : α :=
  max (total_import - total_export) 0 * p_import
    + min (total_import - total_export) 0 * p_export

/-- Per-step dynamic import pricing as the specification words it: the
price of step `i` is the matching entry of the hourly price series, with
indices beyond the series length falling back to the last known price. -/
def specDynPriceAt {α : Type} [LinearOrderedField α] (prices : List α) (i : ℕ) : α :=
  if i < prices.length then prices.getD i 0 else prices.getLastD 0

/-- Dynamic-variant energy cost as the specification words it: every
step of the import profile priced against `specDynPriceAt`, export at
the flat dynamic-export rate. -/
def specDynamicEnergyCost {α : Type} [LinearOrderedField α]
    (prices import_profile export_profile : List α) (p_export_dyn : α) : α :=
  ((List.range import_profile.length).map
    (fun i => import_profile.getD i 0 * specDynPriceAt prices i)).sum
    - export_profile.sum * p_export_dyn

/-- Monthly baseline peak as the specification words it: the maximum over
the month's steps of `max(load[t] − pv[t], 0) / Δt`. -/
def specMonthlyPeakKw {α : Type} [LinearOrderedField α]
    (loadVals pvVals : List α) (months : List ℕ) (dt : α) (m : ℕ) : α :=
  (((List.range loadVals.length).filter (fun i => months.getD i 0 = m + 1)).map
    (fun i => max (loadVals.getD i 0 - pvVals.getD i 0) 0 / dt)).foldl max 0

/-- Monthly baseline peak with the per-step energy taken directly (no
division by the interval duration) — the quantity the code computes. -/
def specMonthlyPeakEnergy {α : Type} [LinearOrderedField α]
    (loadVals pvVals : List α) (months : List ℕ) (m : ℕ) : α :=
  (((List.range loadVals.length).filter (fun i => months.getD i 0 = m + 1)).map
    (fun i => max (loadVals.getD i 0 - pvVals.getD i 0) 0)).foldl max 0

/-- The battery-model constructor contract as the specification words it:
reject non-positive capacity/power and out-of-range DoD/efficiency with an
`InvalidConfiguration` condition, otherwise derive
`(E_max, E_min, η_charge, η_discharge)`. -/
noncomputable def specCheckedBatteryDerivation (capacity power dodFrac effRt : ℝ) :
    Except String (ℝ × ℝ × ℝ × ℝ) :=
  if capacity ≤ 0 ∨ power ≤ 0 ∨ dodFrac ≤ 0 ∨ 1 < dodFrac ∨ effRt ≤ 0 ∨ 1 < effRt then
    .error "InvalidConfiguration"
  else
    .ok (capacity, capacity * (1 - dodFrac), Real.sqrt effRt, Real.sqrt effRt)

/-- Fixed (flow-independent) cost components of `computeCost`: feed-in
fees, inverter cost and the standing charge. -/
def fixedCostComponents {α : Type} [LinearOrderedField α] (cfg : TariffConfig α)
    (total_export_kwh : α) : α :=
  cfg.feedin_monthly_cost * 12
    + max 0 (total_export_kwh - cfg.feedin_free_kwh) * cfg.feedin_price_after_free
    + cfg.inverter_power_kw * cfg.inverter_cost_per_kw
    + cfg.vastrecht_year

/-- Flat-tariff configuration with net metering switched on (the A1
situation): import €0.40, export €0.10, no fixed components. -/
def c1Cfg : TariffConfig ℚ :=
  { country := "NL", current_tariff := "enkel", vastrecht_year := 0,
    p_enkel_imp := 2/5, p_enkel_exp := 1/10, p_dag := 0, p_nacht := 0,
    p_exp_dn := 0, p_export_dyn := 0, dynamic_prices := none,
    feedin_monthly_cost := 0, feedin_cost_per_kwh := 0, feedin_free_kwh := 0,
    feedin_price_after_free := 0, inverter_power_kw := 0,
    inverter_cost_per_kw := 0, capacity_tariff_kw := 0, saldering := true }

/-- Claim C1, counterexample.  With net metering on (`saldering = true`),
an import of 100 kWh at 0.40 and export of 40 kWh at 0.10 under the flat
tariff and no fixed components, the engine charges `100×0.40 − 40×0.10 = 36` — import
and export priced independently — while the claimed netting formula gives
`max(60,0)×0.40 + min(60,0)×0.10 = 24`.  The cost engine never reads the
`saldering` flag. -/
theorem C1_counterexample :
    (computeCost c1Cfg [100] [40] .enkel none none).total_cost_eur = 36
    ∧ specFlatNetMeteredEnergyCost (100 : ℚ) 40 (2/5) (1/10) = 24
    ∧ (computeCost c1Cfg [100] [40] .enkel none none).total_cost_eur
        ≠ specFlatNetMeteredEnergyCost (100 : ℚ) 40 (2/5) (1/10) := by
  refine ⟨?_, ?_, ?_⟩ <;>
    simp [computeCost, c1Cfg, specFlatNetMeteredEnergyCost] <;> norm_num

/-- Claim C1 (amended): for the flat tariff the cost engine prices import
and export independently — `Σimport×p_import − Σexport×p_export` plus the
fixed components — and the result is entirely independent of the
net-metering (`saldering`) toggle, which `compute_cost` never reads. -/
theorem C1_amended (cfg : TariffConfig ℚ) (imp exp : List ℚ) (b : Bool) :
    (computeCost cfg imp exp .enkel none none).total_cost_eur
        = imp.sum * cfg.p_enkel_imp - exp.sum * cfg.p_enkel_exp
          + fixedCostComponents cfg exp.sum
    ∧ computeCost { cfg with saldering := b } imp exp .enkel none none
        = computeCost cfg imp exp .enkel none none := by
  refine ⟨?_, rfl⟩
  simp only [computeCost, fixedCostComponents]
  ring

/-- Dynamic-tariff configuration with the two-entry hourly price series
`[1, 0]` and no fixed components. -/
def c5Cfg : TariffConfig ℚ :=
  { country := "NL", current_tariff := "dynamisch", vastrecht_year := 0,
    p_enkel_imp := 0, p_enkel_exp := 0, p_dag := 0, p_nacht := 0,
    p_exp_dn := 0, p_export_dyn := 0, dynamic_prices := some [1, 0],
    feedin_monthly_cost := 0, feedin_cost_per_kwh := 0, feedin_free_kwh := 0,
    feedin_price_after_free := 0, inverter_power_kw := 0,
    inverter_cost_per_kw := 0, capacity_tariff_kw := 0 }

/-- Claim C5, counterexample.  With hourly prices `[1, 0]` and the import
profile `[10, 0]`, per-step pricing (the claim) yields `10×1 + 0×0 = 10`,
but the engine prices the whole import against the series average `1/2`
and yields `10 × 1/2 = 5`. -/
theorem C5_counterexample :
    (computeCost c5Cfg [10, 0] [] .dynamisch none none).total_cost_eur = 5
    ∧ specDynamicEnergyCost [1, 0] [10, 0] [] (0 : ℚ) = 10
    ∧ (computeCost c5Cfg [10, 0] [] .dynamisch none none).total_cost_eur
        ≠ specDynamicEnergyCost [1, 0] [10, 0] [] (0 : ℚ) := by
  refine ⟨?_, ?_, ?_⟩ <;>
    norm_num [computeCost, c5Cfg, dynPriceAvg, specDynamicEnergyCost,
      specDynPriceAt, List.range_succ]

/-- Claim C5 (amended): when an hourly price series is supplied and
non-empty, the dynamic variant prices the TOTAL import against the
arithmetic mean of the series (not each step against its matching entry);
export is priced at the flat dynamic-export rate, and the net-metering
toggle never affects the result. -/
theorem C5_amended (cfg : TariffConfig ℚ) (imp exp ps : List ℚ)
    (h1 : cfg.dynamic_prices = some ps) (h2 : ps ≠ []) (b : Bool) :
    (computeCost cfg imp exp .dynamisch none none).total_cost_eur
        = imp.sum * (ps.sum / (ps.length : ℚ)) - exp.sum * cfg.p_export_dyn
          + fixedCostComponents cfg exp.sum
    ∧ computeCost { cfg with saldering := b } imp exp .dynamisch none none
        = computeCost cfg imp exp .dynamisch none none := by
  refine ⟨?_, rfl⟩
  simp only [computeCost, fixedCostComponents, dynPriceAvg, h1]
  rw [if_neg (by simpa using List.length_pos.mpr h2 |>.ne')]
  ring

/-- Configuration the C5 witness instantiates the amended claim at. -/
def c5WitnessCfg : TariffConfig ℚ :=
  { c5Cfg with dynamic_prices := some [1, 3] }

/-- Witness for the amended claim C5 at a concrete configuration. -/
theorem C5_amended_witness :
    c5WitnessCfg.dynamic_prices = some [1, 3]
    ∧ ([1, 3] : List ℚ) ≠ []
    ∧ ((computeCost c5WitnessCfg [4, 6] [2] .dynamisch none none).total_cost_eur
        = (([4, 6] : List ℚ).sum * (([1, 3] : List ℚ).sum / (([1, 3] : List ℚ).length : ℚ))
          - ([2] : List ℚ).sum * c5WitnessCfg.p_export_dyn
          + fixedCostComponents c5WitnessCfg ([2] : List ℚ).sum)
      ∧ computeCost { c5WitnessCfg with saldering := false } [4, 6] [2] .dynamisch none none
        = computeCost c5WitnessCfg [4, 6] [2] .dynamisch none none) :=
  ⟨rfl, by decide, C5_amended c5WitnessCfg [4, 6] [2] [1, 3] rfl (by decide) false⟩

/-- Flat-tariff configuration of testable-properties Scenario 2: fixed
charge €100, inverter 5 kW at €10/kW, no feed-in fees, no capacity
tariff, netting off. -/
def c8Cfg : TariffConfig ℚ :=
  { country := "NL", current_tariff := "enkel", vastrecht_year := 100,
    p_enkel_imp := 2/5, p_enkel_exp := 1/10, p_dag := 0, p_nacht := 0,
    p_exp_dn := 0, p_export_dyn := 0, dynamic_prices := none,
    feedin_monthly_cost := 0, feedin_cost_per_kwh := 0, feedin_free_kwh := 0,
    feedin_price_after_free := 0, inverter_power_kw := 5,
    inverter_cost_per_kw := 10, capacity_tariff_kw := 0, saldering := false }

/-- Claim C8: flat tariff, import 100 kWh at 0.40, export 40 kWh at 0.10,
fixed annual charge 100, inverter 5 kW at 10 per kW, zero feed-in fees, no
capacity tariff: the engine returns exactly
`100×0.40 − 40×0.10 + 100 + 50 = 186`. -/
theorem C8_flat_example :
    computeCost c8Cfg [100] [40] .enkel none none =
      { import_kwh := 100, export_kwh := 40, total_cost_eur := 186 } := by
  simp [computeCost, c8Cfg, dynPriceAvg]
  norm_num

/-- Peak-billed ("BE") configuration used to exercise the peak arrays of a
full run. -/
noncomputable def c3Cfg : TariffConfig ℝ :=
  { country := "BE", current_tariff := "enkel", vastrecht_year := 100,
    p_enkel_imp := 2/5, p_enkel_exp := 1/10, p_dag := 0, p_nacht := 0,
    p_exp_dn := 0, p_export_dyn := 0, dynamic_prices := none,
    feedin_monthly_cost := 0, feedin_cost_per_kwh := 0, feedin_free_kwh := 0,
    feedin_price_after_free := 0, inverter_power_kw := 5,
    inverter_cost_per_kw := 10, capacity_tariff_kw := 50 }

/-- One-step load series for the C3 counterexample. -/
noncomputable def c3LoadTs : TimeSeries ℝ := ⟨[0], [2], 1⟩

/-- One-step PV series for the C3 counterexample. -/
noncomputable def c3PvTs : TimeSeries ℝ := ⟨[0], [1], 1⟩

/-- Claim C3, counterexample.  Even in the peak-billed jurisdiction
("BE"), a full run returns `monthly_before` and `monthly_after` as EMPTY
lists, not length-12 arrays. -/
theorem C3_counterexample :
    ((scenarioRun c3LoadTs c3PvTs c3Cfg none).1.peaks.monthly_before).length = 0
    ∧ ((scenarioRun c3LoadTs c3PvTs c3Cfg none).1.peaks.monthly_after).length = 0
    ∧ (0 : ℕ) ≠ 12 :=
  ⟨rfl, rfl, by decide⟩

/-- Claim C3 (amended): for every input — battery or not, peak-billed or
not — the `peaks` entry of the result record holds two empty lists; the
length-12 monthly peak arrays are never produced by `ScenarioRunner.run`. -/
theorem C3_amended (load pv : TimeSeries ℝ) (cfg : TariffConfig ℝ)
    (batt? : Option (BatteryConfig ℝ)) :
    (scenarioRun load pv cfg batt?).1.peaks =
      { monthly_before := [], monthly_after := [] } := by
  cases batt? <;> rfl

/-- Flat configuration with the net-metering flag on, as every request
starts out (`saldering = true` is the dataclass default). -/
noncomputable def c9Cfg : TariffConfig ℝ :=
  { country := "NL", current_tariff := "enkel", vastrecht_year := 100,
    p_enkel_imp := 2/5, p_enkel_exp := 1/10, p_dag := 0, p_nacht := 0,
    p_exp_dn := 0, p_export_dyn := 0, dynamic_prices := none,
    feedin_monthly_cost := 0, feedin_cost_per_kwh := 0, feedin_free_kwh := 0,
    feedin_price_after_free := 0, inverter_power_kw := 5,
    inverter_cost_per_kw := 10, capacity_tariff_kw := 0, saldering := true }

/-- One-step load series for the C9 counterexample. -/
noncomputable def c9LoadTs : TimeSeries ℝ := ⟨[0], [3], 1⟩

/-- One-step PV series for the C9 counterexample. -/
noncomputable def c9PvTs : TimeSeries ℝ := ⟨[0], [1], 1⟩

/-- Claim C9, counterexample.  A run handed a `TariffConfig` whose
`saldering` flag is `true` returns with that flag set to `false`: the
configuration object is mutated in place by `ScenarioRunner.run`
(scenario_runner.py lines 158 and 174). -/
theorem C9_counterexample :
    c9Cfg.saldering = true
    ∧ (scenarioRun c9LoadTs c9PvTs c9Cfg none).2.saldering = false
    ∧ (scenarioRun c9LoadTs c9PvTs c9Cfg none).2 ≠ c9Cfg := by
  refine ⟨rfl, rfl, fun h => ?_⟩
  have h2 : (false : Bool) = true := congrArg TariffConfig.saldering h
  exact Bool.noConfusion h2

/-- Claim C9 (amended): a run leaves the load/PV series and every
`TariffConfig` field except `saldering` unchanged, but always returns the
configuration with `saldering` forced to `false` (the value set before the
B1/C1 cost computations), so a configuration that arrives with netting
enabled has been mutated when `run` returns. -/
theorem C9_amended (load pv : TimeSeries ℝ) (cfg : TariffConfig ℝ)
    (batt? : Option (BatteryConfig ℝ)) :
    (scenarioRun load pv cfg batt?).2 = { cfg with saldering := false } := by
  cases batt? <;> rfl

/-- Engine request with series of mismatched lengths (2 load steps, 1 PV
step). -/
noncomputable def c4Input : ComputeV3Input :=
  { load_kwh := [1, 2], pv_kwh := [1], prices_dyn := none,
    p_enkel_imp := 2/5, p_enkel_exp := 1/10, p_dag := 0, p_nacht := 0,
    p_exp_dn := 0, p_export_dyn := 0,
    E := 5, P := 3, DoD := 9/10, eta_rt := 9/10, vastrecht := 100,
    battery_cost := 3000, battery_degradation := 1/100,
    feedin_monthly_cost := 0, feedin_cost_per_kwh := 0, feedin_free_kwh := 0,
    feedin_price_after_free := 0, inverter_power_kw := 5,
    inverter_cost_per_kw_year := 10, capacity_tariff_kw_year := 0,
    current_tariff := "enkel", country := "NL" }

/-- Engine request with an empty load series. -/
noncomputable def c4EmptyInput : ComputeV3Input :=
  { c4Input with load_kwh := [] }

/-- Claim C4, counterexample.  Series of mismatched lengths (2 versus 1)
are NOT rejected: `compute` silently truncates both to the shorter length
and the run proceeds to a normal result. -/
theorem C4_counterexample :
    c4Input.load_kwh.length = 2 ∧ c4Input.pv_kwh.length = 1
    ∧ (computeV3 c4Input).isOk = true := by
  refine ⟨rfl, rfl, ?_⟩
  have hcond : ¬(c4Input.load_kwh = [] ∨ c4Input.pv_kwh = []) := by
    simp [c4Input]
  simp only [computeV3, prepareSeries, if_neg hcond]
  rfl

/-- Claim C4 (amended): an empty load or PV series makes `compute` fail
with the error value `LOAD_OR_PV_EMPTY` before any simulation state
exists, but mismatched non-empty series are not a failure: both are
truncated to the shorter length and the computation proceeds.  No
`LengthMismatch` condition exists in the engine. -/
theorem C4_amended (inp : ComputeV3Input) :
    (inp.load_kwh = [] ∨ inp.pv_kwh = [] →
      computeV3 inp = .error "LOAD_OR_PV_EMPTY")
    ∧ (inp.load_kwh ≠ [] → inp.pv_kwh ≠ [] → (computeV3 inp).isOk = true) := by
  constructor
  · intro h
    simp only [computeV3, prepareSeries, if_pos h]
  · intro h1 h2
    have hcond : ¬(inp.load_kwh = [] ∨ inp.pv_kwh = []) := by simp [h1, h2]
    simp only [computeV3, prepareSeries, if_neg hcond]
    rfl

/-- Witness for the amended claim C4: the error branch at an empty input
and the proceeding branch at the mismatched input. -/
theorem C4_amended_witness :
    (c4EmptyInput.load_kwh = [] ∨ c4EmptyInput.pv_kwh = [])
    ∧ computeV3 c4EmptyInput = .error "LOAD_OR_PV_EMPTY"
    ∧ c4Input.load_kwh ≠ []
    ∧ c4Input.pv_kwh ≠ []
    ∧ (computeV3 c4Input).isOk = true :=
  ⟨Or.inl rfl, (C4_amended c4EmptyInput).1 (Or.inl rfl),
    by simp [c4Input], by simp [c4Input],
    (C4_amended c4Input).2 (by simp [c4Input]) (by simp [c4Input])⟩

/-- Claim C10: for non-empty inputs, the engine truncates both series to
the shorter length `n`, infers the resolution solely from `n`
(quarter-hourly for `n ≥ 30000`, hourly otherwise), generates the
timestamps as `dt·i` hours after the fixed start 2025-01-01, and performs
no further validation — the run always proceeds. -/
theorem C10_preprocessing (inp : ComputeV3Input)
    (h1 : inp.load_kwh ≠ []) (h2 : inp.pv_kwh ≠ []) :
    prepareSeries inp.load_kwh inp.pv_kwh =
      some
        (⟨(List.range (min inp.load_kwh.length inp.pv_kwh.length)).map
            (fun i =>
              (if 30000 ≤ min inp.load_kwh.length inp.pv_kwh.length
                then (1/4 : ℝ) else 1) * (i : ℝ)),
          inp.load_kwh.take (min inp.load_kwh.length inp.pv_kwh.length),
          if 30000 ≤ min inp.load_kwh.length inp.pv_kwh.length
            then (1/4 : ℝ) else 1⟩,
         ⟨(List.range (min inp.load_kwh.length inp.pv_kwh.length)).map
            (fun i =>
              (if 30000 ≤ min inp.load_kwh.length inp.pv_kwh.length
                then (1/4 : ℝ) else 1) * (i : ℝ)),
          inp.pv_kwh.take (min inp.load_kwh.length inp.pv_kwh.length),
          if 30000 ≤ min inp.load_kwh.length inp.pv_kwh.length
            then (1/4 : ℝ) else 1⟩)
    ∧ (computeV3 inp).isOk = true := by
  have hcond : ¬(inp.load_kwh = [] ∨ inp.pv_kwh = []) := by simp [h1, h2]
  constructor
  · simp only [prepareSeries, if_neg hcond]
  · simp only [computeV3, prepareSeries, if_neg hcond]
    rfl

/-- Engine request with series of lengths 3 and 2 for the C10 witness. -/
noncomputable def c10Input : ComputeV3Input :=
  { c4Input with load_kwh := [1, 2, 3], pv_kwh := [2, 1] }

/-- Witness for claim C10 at a concrete request: 3 load steps and 2 PV
steps truncate to 2 hourly steps. -/
theorem C10_preprocessing_witness :
    c10Input.load_kwh ≠ []
    ∧ c10Input.pv_kwh ≠ []
    ∧ (prepareSeries c10Input.load_kwh c10Input.pv_kwh =
        some
          (⟨(List.range (min c10Input.load_kwh.length c10Input.pv_kwh.length)).map
              (fun i =>
                (if 30000 ≤ min c10Input.load_kwh.length c10Input.pv_kwh.length
                  then (1/4 : ℝ) else 1) * (i : ℝ)),
            c10Input.load_kwh.take (min c10Input.load_kwh.length c10Input.pv_kwh.length),
            if 30000 ≤ min c10Input.load_kwh.length c10Input.pv_kwh.length
              then (1/4 : ℝ) else 1⟩,
           ⟨(List.range (min c10Input.load_kwh.length c10Input.pv_kwh.length)).map
              (fun i =>
                (if 30000 ≤ min c10Input.load_kwh.length c10Input.pv_kwh.length
                  then (1/4 : ℝ) else 1) * (i : ℝ)),
            c10Input.pv_kwh.take (min c10Input.load_kwh.length c10Input.pv_kwh.length),
            if 30000 ≤ min c10Input.load_kwh.length c10Input.pv_kwh.length
              then (1/4 : ℝ) else 1⟩)
      ∧ (computeV3 c10Input).isOk = true) :=
  ⟨by simp [c10Input, c4Input], by simp [c10Input, c4Input],
    C10_preprocessing c10Input (by simp [c10Input, c4Input])
      (by simp [c10Input, c4Input])⟩

/-- Claim C7, counterexample.  At capacity −1 (non-positive, so the claim
demands an `InvalidConfiguration` failure, as the spec-side contract
records) the constructor does not fail: it clamps the capacity to 0 and
returns a fully-populated model. -/
theorem C7_counterexample :
    specCheckedBatteryDerivation (-1) 5 (9/10) (9/10) = .error "InvalidConfiguration"
    ∧ (mkBatteryModel (-1) 5 (9/10) (9/10) 1).E_cap = 0
    ∧ (mkBatteryModel (-1) 5 (9/10) (9/10) 1).E_max = 0
    ∧ (mkBatteryModel (-1) 5 (9/10) (9/10) 1).power_kw = 5 := by
  refine ⟨?_, ?_, ?_, ?_⟩
  · rw [specCheckedBatteryDerivation, if_pos (Or.inl (by norm_num))]
  all_goals norm_num [mkBatteryModel]

/-- Claim C7 (amended): the constructor never fails — out-of-range inputs
are clamped instead — and for inputs already satisfying the contract
(capacity > 0, power > 0, DoD and efficiency in (0,1]) it yields exactly
the claimed derived bounds: `E_max = capacity`,
`E_min = capacity × (1 − DoD)`, and charge/discharge efficiency both equal
to the square root of the round-trip efficiency. -/
theorem C7_amended (c p d e f : ℝ) (hc : 0 < c) (hp : 0 < p)
    (hd0 : 0 < d) (hd1 : d ≤ 1) (he0 : 0 < e) (_he1 : e ≤ 1) :
    (mkBatteryModel c p d e f).E_max = c
    ∧ (mkBatteryModel c p d e f).E_min = c * (1 - d)
    ∧ (mkBatteryModel c p d e f).eta_charge = Real.sqrt e
    ∧ (mkBatteryModel c p d e f).eta_discharge = Real.sqrt e
    ∧ (mkBatteryModel c p d e f).capacity_kwh = c
    ∧ (mkBatteryModel c p d e f).power_kw = p := by
  have h1 : (if c < 0 then (0 : ℝ) else c) = c := if_neg (not_lt.mpr hc.le)
  have h2 : (if p < 0 then (0 : ℝ) else p) = p := if_neg (not_lt.mpr hp.le)
  have h3 : (if d < 0 then (0 : ℝ) else d) = d := if_neg (not_lt.mpr hd0.le)
  have h4 : (if d > 1 then (1 : ℝ) else d) = d := if_neg (not_lt.mpr hd1)
  have h5 : (if e ≤ 0 then (1 : ℝ) else e) = e := if_neg (not_le.mpr he0)
  simp [mkBatteryModel, h1, h2, h3, h4, h5]

/-- Witness for the amended claim C7 at capacity 10 kWh, power 5 kW,
DoD 0.9, round-trip efficiency 0.81. -/
theorem C7_amended_witness :
    (0 : ℝ) < 10 ∧ (0 : ℝ) < 5 ∧ (0 : ℝ) < 9/10 ∧ (9/10 : ℝ) ≤ 1
    ∧ (0 : ℝ) < 81/100 ∧ (81/100 : ℝ) ≤ 1
    ∧ ((mkBatteryModel 10 5 (9/10) (81/100) 1).E_max = 10
      ∧ (mkBatteryModel 10 5 (9/10) (81/100) 1).E_min = 10 * (1 - 9/10)
      ∧ (mkBatteryModel 10 5 (9/10) (81/100) 1).eta_charge = Real.sqrt (81/100)
      ∧ (mkBatteryModel 10 5 (9/10) (81/100) 1).eta_discharge = Real.sqrt (81/100)
      ∧ (mkBatteryModel 10 5 (9/10) (81/100) 1).capacity_kwh = 10
      ∧ (mkBatteryModel 10 5 (9/10) (81/100) 1).power_kw = 5) :=
  ⟨by norm_num, by norm_num, by norm_num, by norm_num, by norm_num, by norm_num,
    C7_amended 10 5 (9/10) (81/100) 1 (by norm_num) (by norm_num) (by norm_num)
      (by norm_num) (by norm_num) (by norm_num)⟩

/-- Clamping a real below by zero is non-negative. -/
lemma clampLo_nonneg (x : ℝ) : 0 ≤ if x < 0 then 0 else x := by
  rcases lt_or_ge x 0 with h | h
  · rw [if_pos h]
  · rw [if_neg (not_lt.mpr h)]; exact h

/-- Clamping above by one stays at most one. -/
lemma clampHi_le_one (x : ℝ) : (if x > 1 then 1 else x) ≤ 1 := by
  rcases lt_or_ge 1 x with h | h
  · rw [if_pos h]
  · rw [if_neg (not_lt.mpr h)]; exact h

/-- Clamping a non-negative real above by one keeps it non-negative. -/
lemma clampHi_nonneg (x : ℝ) (hx : 0 ≤ x) : 0 ≤ if x > 1 then 1 else x := by
  rcases lt_or_ge 1 x with h | h
  · rw [if_pos h]; norm_num
  · rw [if_neg (not_lt.mpr h)]; exact hx

/-- The derived bounds of every constructed battery model are coherent:
`0 ≤ E_min ≤ E_max`, the initial SoC lies between them, and the power and
split efficiencies are non-negative. -/
lemma mkBatteryModel_bounds (c p d e f : ℝ) :
    0 ≤ (mkBatteryModel c p d e f).E_min
    ∧ (mkBatteryModel c p d e f).E_min ≤ (mkBatteryModel c p d e f).E_max
    ∧ (mkBatteryModel c p d e f).E_min ≤ (mkBatteryModel c p d e f).initial_soc_kwh
    ∧ (mkBatteryModel c p d e f).initial_soc_kwh ≤ (mkBatteryModel c p d e f).E_max
    ∧ 0 ≤ (mkBatteryModel c p d e f).power_kw
    ∧ 0 ≤ (mkBatteryModel c p d e f).eta_charge
    ∧ 0 ≤ (mkBatteryModel c p d e f).eta_discharge := by
  have hc : 0 ≤ if c < 0 then (0 : ℝ) else c := clampLo_nonneg c
  have hp : 0 ≤ if p < 0 then (0 : ℝ) else p := clampLo_nonneg p
  have hd0 : 0 ≤ if (if d < 0 then (0 : ℝ) else d) > 1 then 1
      else if d < 0 then (0 : ℝ) else d :=
    clampHi_nonneg _ (clampLo_nonneg d)
  have hd1 : (if (if d < 0 then (0 : ℝ) else d) > 1 then 1
      else if d < 0 then (0 : ℝ) else d) ≤ 1 := clampHi_le_one _
  have hf0 : 0 ≤ if (if f < 0 then (0 : ℝ) else f) > 1 then 1
      else if f < 0 then (0 : ℝ) else f :=
    clampHi_nonneg _ (clampLo_nonneg f)
  have hf1 : (if (if f < 0 then (0 : ℝ) else f) > 1 then 1
      else if f < 0 then (0 : ℝ) else f) ≤ 1 := clampHi_le_one _
  simp only [mkBatteryModel]
  set C := if c < 0 then (0 : ℝ) else c with hC
  set D := if (if d < 0 then (0 : ℝ) else d) > 1 then 1
    else if d < 0 then (0 : ℝ) else d with hD
  set F := if (if f < 0 then (0 : ℝ) else f) > 1 then 1
    else if f < 0 then (0 : ℝ) else f with hF
  have hmin0 : 0 ≤ C * (1 - D) := mul_nonneg hc (by linarith)
  have hminmax : C * (1 - D) ≤ C := by nlinarith [mul_nonneg hc hd0]
  have hgap0 : 0 ≤ F * (C - C * (1 - D)) :=
    mul_nonneg hf0 (sub_nonneg.mpr hminmax)
  have hgap1 := mul_nonneg (sub_nonneg.mpr hf1) (sub_nonneg.mpr hminmax)
  refine ⟨hmin0, hminmax, by linarith, by nlinarith, hp,
    Real.sqrt_nonneg _, Real.sqrt_nonneg _⟩

/-- One `simulate_with_battery` step ends inside `[E_min, E_max]`: the
final guardrail clamp enforces it whenever the bounds are coherent. -/
lemma stepWithBattery_soc_mem (batt : BatteryModel ℝ) (dt eR : ℝ)
    (hp : Bool) (pl ph : Option ℝ) (agc : Bool) (soc l p : ℝ)
    (pr? : Option ℝ) (hE : batt.E_min ≤ batt.E_max) :
    batt.E_min ≤ (stepWithBattery batt dt eR hp pl ph agc soc l p pr?).2.2
    ∧ (stepWithBattery batt dt eR hp pl ph agc soc l p pr?).2.2 ≤ batt.E_max :=
  ⟨le_min (le_max_right _ _) hE, min_le_right _ _⟩

/-- Every SoC value emitted by the `simulate_with_battery` loop lies in
`[E_min, E_max]`. -/
lemma simWithBatteryLoop_soc_mem (batt : BatteryModel ℝ) (dt eR : ℝ)
    (hp : Bool) (pl ph : Option ℝ) (agc : Bool)
    (hE : batt.E_min ≤ batt.E_max) :
    ∀ (pairs : List (ℝ × ℝ)) (prices : List ℝ) (soc : ℝ),
      ∀ s ∈ (simWithBatteryLoop batt dt eR hp pl ph agc soc pairs prices).2.2,
        batt.E_min ≤ s ∧ s ≤ batt.E_max := by
  intro pairs
  induction pairs with
  | nil => intro prices soc s hs; simp [simWithBatteryLoop] at hs
  | cons lp rest ih =>
    intro prices soc s hs
    simp only [simWithBatteryLoop, List.mem_cons] at hs
    rcases hs with h | h
    · subst h
      exact stepWithBattery_soc_mem batt dt eR hp pl ph agc soc lp.1 lp.2
        prices.head? hE
    · exact ih prices.tail _ s h

/-- One `simulate_with_peak_shaving` step keeps the SoC inside
`[E_min, E_max]`: discharge is clipped at the (at least `E_min`) planned
lower bound and charge at `E_max`. -/
lemma stepPeakShaving_soc_mem (batt : BatteryModel ℝ) (dt tp smr soc l p : ℝ)
    (_hE : batt.E_min ≤ batt.E_max) (hP : 0 ≤ batt.power_kw)
    (hC : 0 ≤ batt.eta_charge) (hdt : 0 ≤ dt)
    (h0 : batt.E_min ≤ soc) (h1 : soc ≤ batt.E_max) :
    batt.E_min ≤ (stepPeakShaving batt dt tp smr soc l p).2.2
    ∧ (stepPeakShaving batt dt tp smr soc l p).2.2 ≤ batt.E_max := by
  have hlb : batt.E_min ≤ max batt.E_min smr := le_max_left _ _
  have hmx : max 0 (soc - max batt.E_min smr) ≤ soc - batt.E_min :=
    max_le (by linarith) (by linarith)
  have hmx0 : (0 : ℝ) ≤ max 0 (soc - max batt.E_min smr) := le_max_left _ _
  have hov : max 0 (batt.E_max - soc) ≤ batt.E_max - soc :=
    max_le (by linarith) le_rfl
  have hov0 : (0 : ℝ) ≤ max 0 (batt.E_max - soc) := le_max_left _ _
  by_cases hnet : l - p > tp
  · by_cases hed : batt.eta_discharge > 0
    · have hq : 0 ≤ min (l - p - tp) batt.power_kw * dt / batt.eta_discharge :=
        div_nonneg (mul_nonneg (le_min (by linarith) hP) hdt) hed.le
      by_cases hclip :
          soc - min (l - p - tp) batt.power_kw * dt / batt.eta_discharge
            < max batt.E_min smr
      · simp only [stepPeakShaving, if_pos hnet, if_pos hed, if_pos hclip]
        exact ⟨by linarith, by linarith⟩
      · rw [not_lt] at hclip
        simp only [stepPeakShaving, if_pos hnet, if_pos hed,
          if_neg (not_lt.mpr hclip)]
        exact ⟨by linarith, by linarith⟩
    · by_cases hclip : soc - 0 < max batt.E_min smr
      · simp only [stepPeakShaving, if_pos hnet, if_neg hed, if_pos hclip]
        exact ⟨by linarith, by linarith⟩
      · rw [not_lt] at hclip
        simp only [stepPeakShaving, if_pos hnet, if_neg hed,
          if_neg (not_lt.mpr hclip)]
        exact ⟨by linarith, by linarith⟩
  · by_cases hsur : p - l > 0
    · by_cases hover :
          soc + min (p - l) batt.power_kw * dt * batt.eta_charge > batt.E_max
      · simp only [stepPeakShaving, if_neg hnet, if_pos hsur, if_pos hover]
        exact ⟨by linarith, by linarith⟩
      · have hq : 0 ≤ min (p - l) batt.power_kw * dt * batt.eta_charge :=
          mul_nonneg (mul_nonneg (le_min (by linarith) hP) hdt) hC
        rw [not_lt] at hover
        simp only [stepPeakShaving, if_neg hnet, if_pos hsur,
          if_neg (not_lt.mpr hover)]
        exact ⟨by linarith, by linarith⟩
    · simp only [stepPeakShaving, if_neg hnet, if_neg hsur]
      exact ⟨h0, h1⟩

/-- Every SoC value recorded by the `simulate_with_peak_shaving` loop lies
in `[E_min, E_max]` whenever the starting SoC does. -/
lemma peakShavingLoop_soc_mem (batt : BatteryModel ℝ)
    (loadVals pvVals : List ℝ) (months : List ℕ) (dt : ℝ)
    (targets socPlan : List ℝ)
    (hE : batt.E_min ≤ batt.E_max) (hP : 0 ≤ batt.power_kw)
    (hC : 0 ≤ batt.eta_charge) (hdt : 0 ≤ dt) :
    ∀ (ts : List ℕ) (peaks : List ℝ) (soc : ℝ),
      batt.E_min ≤ soc → soc ≤ batt.E_max →
      ∀ s ∈ (peakShavingLoop batt loadVals pvVals months dt targets socPlan
          soc peaks ts).2.2.2,
        batt.E_min ≤ s ∧ s ≤ batt.E_max := by
  intro ts
  induction ts with
  | nil => intro peaks soc _ _ s hs; simp [peakShavingLoop] at hs
  | cons t rest ih =>
    intro peaks soc hlo hhi s hs
    simp only [peakShavingLoop, List.mem_cons] at hs
    have hstep := stepPeakShaving_soc_mem batt dt
      (if (if months.getD t 1 - 1 > 11 then 0 else months.getD t 1 - 1)
          < targets.length
        then targets.getD
          (if months.getD t 1 - 1 > 11 then 0 else months.getD t 1 - 1) 0
        else targets.getD 0 0)
      (socPlan.getD t 0) soc (loadVals.getD t 0) (pvVals.getD t 0)
      hE hP hC hdt hlo hhi
    rcases hs with h | h
    · subst h; exact hstep
    · exact ih _ _ hstep.1 hstep.2 s h

/-- Claim C2: for every battery model built by the clamping constructor
and every pair of equal-length load/PV series (with a non-negative
interval duration), every state-of-charge value recorded by the ordinary
dispatch simulation AND by the peak-shaving simulation lies in
`[E_min, E_max]` — whatever the price series, grid-charge flag, monthly
targets and SoC plan. -/
theorem C2_soc_bounds (c p d e f : ℝ) (loadVals pvVals : List ℝ)
    (months : List ℕ) (dt : ℝ) (targets : List ℝ)
    (socPlan? prices? : Option (List ℝ)) (agc : Bool)
    (_hlen : loadVals.length = pvVals.length) (hdt : 0 ≤ dt) :
    (∀ s ∈ (simulateWithBattery (some (mkBatteryModel c p d e f))
        loadVals pvVals dt prices? agc).soc_profile,
      (mkBatteryModel c p d e f).E_min ≤ s
        ∧ s ≤ (mkBatteryModel c p d e f).E_max)
    ∧ (∀ s ∈ (simulateWithPeakShaving loadVals pvVals months dt
        (mkBatteryModel c p d e f) targets socPlan?).soc_profile,
      (mkBatteryModel c p d e f).E_min ≤ s
        ∧ s ≤ (mkBatteryModel c p d e f).E_max) := by
  obtain ⟨hm0, hmm, hi0, hi1, hPw, hCc, hDd⟩ := mkBatteryModel_bounds c p d e f
  constructor
  · intro s hs
    simp only [simulateWithBattery] at hs
    exact simWithBatteryLoop_soc_mem _ _ _ _ _ _ _ hmm _ _ _ s hs
  · intro s hs
    simp only [simulateWithPeakShaving] at hs
    exact peakShavingLoop_soc_mem _ _ _ _ _ _ _ hmm hPw hCc hdt _ _ _ hi0 hi1 s hs

/-- Witness for claim C2 at a one-step run of both simulations with a
10 kWh / 5 kW battery at 81% round-trip efficiency. -/
theorem C2_soc_bounds_witness :
    ([2] : List ℝ).length = ([1] : List ℝ).length ∧ (0 : ℝ) ≤ 1
    ∧ ((∀ s ∈ (simulateWithBattery (some (mkBatteryModel 10 5 (9/10) (81/100) 1))
          [2] [1] 1 none false).soc_profile,
        (mkBatteryModel 10 5 (9/10) (81/100) 1).E_min ≤ s
          ∧ s ≤ (mkBatteryModel 10 5 (9/10) (81/100) 1).E_max)
      ∧ (∀ s ∈ (simulateWithPeakShaving [2] [1] [1] 1
          (mkBatteryModel 10 5 (9/10) (81/100) 1) [1] none).soc_profile,
        (mkBatteryModel 10 5 (9/10) (81/100) 1).E_min ≤ s
          ∧ s ≤ (mkBatteryModel 10 5 (9/10) (81/100) 1).E_max)) :=
  ⟨rfl, by norm_num,
    C2_soc_bounds 10 5 (9/10) (81/100) 1 [2] [1] [1] 1 [1] none none false
      rfl (by norm_num)⟩

/-- Per-step net draw of `compute_monthly_peaks`: `load − pv`, floored at
zero ("export telt niet mee als piek"). -/
def peakNet {α : Type} [LinearOrderedField α] (loadVals pvVals : List α)
    (i : ℕ) : α :=
  if loadVals.getD i 0 - pvVals.getD i 0 < 0 then 0
  else loadVals.getD i 0 - pvVals.getD i 0

/-- The body of the `compute_monthly_peaks` loop: bump the month's entry
when the step's net draw exceeds it. -/
def peakStep {α : Type} [LinearOrderedField α] (loadVals pvVals : List α)
    (months : List ℕ) (peaks : List α) (i : ℕ) : List α :=
  let net := peakNet loadVals pvVals i
  let m := months.getD i 1 - 1
  if net > peaks.getD m 0 then peaks.set m net else peaks

/-- `computeMonthlyPeaks` is the fold of `peakStep` over the step indices. -/
lemma computeMonthlyPeaks_eq_fold {α : Type} [LinearOrderedField α]
    (loadVals pvVals : List α) (months : List ℕ) :
    computeMonthlyPeaks loadVals pvVals months =
      (List.range loadVals.length).foldl (peakStep loadVals pvVals months)
        (List.replicate 12 0) := rfl

/-- `peakStep` preserves the length of the peak array. -/
lemma peakStep_length {α : Type} [LinearOrderedField α]
    (loadVals pvVals : List α) (months : List ℕ) (peaks : List α) (i : ℕ) :
    (peakStep loadVals pvVals months peaks i).length = peaks.length := by
  unfold peakStep
  by_cases h : peakNet loadVals pvVals i > peaks.getD (months.getD i 1 - 1) 0
  · rw [if_pos h, List.length_set]
  · rw [if_neg h]

/-- Reading entry `m` after one `peakStep`: the entry takes the maximum
with the step's net draw when the step falls in month `m`, and is
untouched otherwise. -/
lemma peakStep_getD {α : Type} [LinearOrderedField α]
    (loadVals pvVals : List α) (months : List ℕ) (peaks : List α) (i m : ℕ)
    (hp12 : peaks.length = 12) (hmi : months.getD i 1 - 1 < 12) :
    (peakStep loadVals pvVals months peaks i).getD m 0 =
      if months.getD i 1 - 1 = m
        then max (peaks.getD m 0) (peakNet loadVals pvVals i)
        else peaks.getD m 0 := by
  unfold peakStep
  by_cases hgt : peakNet loadVals pvVals i > peaks.getD (months.getD i 1 - 1) 0
  · rw [if_pos hgt]
    by_cases heq : months.getD i 1 - 1 = m
    · subst heq
      rw [if_pos rfl, List.getD_eq_getElem?_getD, List.getElem?_set,
        if_pos rfl, if_pos (by omega), Option.getD_some,
        max_eq_right hgt.le]
    · rw [if_neg heq, List.getD_eq_getElem?_getD, List.getElem?_set,
        if_neg heq, ← List.getD_eq_getElem?_getD]
  · rw [if_neg hgt]
    by_cases heq : months.getD i 1 - 1 = m
    · rw [if_pos heq]
      rw [heq] at hgt
      exact (max_eq_left (not_lt.mp hgt)).symm
    · rw [if_neg heq]

/-- The starting value of a `foldl max` is a lower bound of the result. -/
lemma le_foldl_max {α : Type} [LinearOrder α] :
    ∀ (l : List α) (a : α), a ≤ l.foldl max a := by
  intro l
  induction l with
  | nil => intro a; exact le_rfl
  | cons x xs ih => intro a; exact le_trans (le_max_left a x) (ih (max a x))

/-- Folding `peakStep` over any index list: entry `m` of the result is the
running maximum, over the indices falling in month `m`, of the per-step
net draws, seeded with the entry's starting value. -/
lemma peakFold_getD {α : Type} [LinearOrderedField α]
    (loadVals pvVals : List α) (months : List ℕ) :
    ∀ (idxs : List ℕ) (peaks : List α), peaks.length = 12 →
      (∀ i ∈ idxs, months.getD i 1 - 1 < 12) → ∀ m, m < 12 →
      (idxs.foldl (peakStep loadVals pvVals months) peaks).getD m 0 =
        ((idxs.filter (fun i => months.getD i 1 - 1 = m)).map
          (peakNet loadVals pvVals)).foldl max (peaks.getD m 0) := by
  intro idxs
  induction idxs with
  | nil => intro peaks _ _ m _; simp
  | cons i rest ih =>
    intro peaks hp12 hall m hm12
    have hmi : months.getD i 1 - 1 < 12 := hall i (List.mem_cons_self i rest)
    rw [List.foldl_cons,
      ih (peakStep loadVals pvVals months peaks i)
        (by rw [peakStep_length]; exact hp12)
        (fun j hj => hall j (List.mem_cons_of_mem _ hj)) m hm12,
      List.filter_cons]
    by_cases heq : months.getD i 1 - 1 = m
    · rw [if_pos (by simpa using heq), List.map_cons, List.foldl_cons,
        peakStep_getD loadVals pvVals months peaks i m hp12 hmi, if_pos heq]
    · rw [if_neg (by simpa using heq),
        peakStep_getD loadVals pvVals months peaks i m hp12 hmi, if_neg heq]

/-- Claim C6 (amended): for every month `m`, the baseline monthly peak is
the maximum over that month's steps of `max(load[t] − pv[t], 0)` — the
per-step ENERGY taken directly, with no division by the interval duration
— and it is never negative: export never counts toward the peak. -/
theorem C6_amended {α : Type} [LinearOrderedField α]
    (loadVals pvVals : List α) (months : List ℕ)
    (_hpv : pvVals.length = loadVals.length)
    (hml : months.length = loadVals.length)
    (hmv : ∀ x ∈ months, 1 ≤ x ∧ x ≤ 12) (m : ℕ) (hm12 : m < 12) :
    (computeMonthlyPeaks loadVals pvVals months).getD m 0
      = specMonthlyPeakEnergy loadVals pvVals months m
    ∧ 0 ≤ (computeMonthlyPeaks loadVals pvVals months).getD m 0 := by
  have hall : ∀ i ∈ List.range loadVals.length, months.getD i 1 - 1 < 12 := by
    intro i hi
    rw [List.mem_range] at hi
    have hilt : i < months.length := by omega
    have hx := hmv (months.get ⟨i, hilt⟩) (List.get_mem months i hilt)
    rw [List.getD_eq_getElem _ _ hilt]
    have hg : months[i] = months.get ⟨i, hilt⟩ := rfl
    omega
  have h1 : (computeMonthlyPeaks loadVals pvVals months).getD m 0 =
      (((List.range loadVals.length).filter
        (fun i => months.getD i 1 - 1 = m)).map
          (peakNet loadVals pvVals)).foldl max 0 := by
    rw [computeMonthlyPeaks_eq_fold,
      peakFold_getD loadVals pvVals months (List.range loadVals.length)
        (List.replicate 12 0) (by simp) hall m hm12]
    congr 1
    interval_cases m <;> rfl
  constructor
  · rw [h1]
    unfold specMonthlyPeakEnergy
    have hfeq : (List.range loadVals.length).filter
          (fun i => months.getD i 1 - 1 = m)
        = (List.range loadVals.length).filter
          (fun i => months.getD i 0 = m + 1) := by
      apply List.filter_congr
      intro i hi
      rw [List.mem_range] at hi
      have hilt : i < months.length := by omega
      rw [List.getD_eq_getElem _ _ hilt, List.getD_eq_getElem _ _ hilt]
      have hx := hmv (months.get ⟨i, hilt⟩) (List.get_mem months i hilt)
      have hg : months[i] = months.get ⟨i, hilt⟩ := rfl
      apply decide_eq_decide.mpr
      omega
    have hmapeq : ((List.range loadVals.length).filter
          (fun i => months.getD i 1 - 1 = m)).map (peakNet loadVals pvVals)
        = ((List.range loadVals.length).filter
          (fun i => months.getD i 0 = m + 1)).map
            (fun i => max (loadVals.getD i 0 - pvVals.getD i 0) 0) := by
      rw [hfeq]
      apply List.map_congr_left
      intro i _
      unfold peakNet
      rcases lt_or_ge (loadVals.getD i 0 - pvVals.getD i 0) 0 with h | h
      · rw [if_pos h, max_eq_right h.le]
      · rw [if_neg (not_lt.mpr h), max_eq_left h]
    rw [hmapeq]
  · rw [h1]
    exact le_foldl_max _ 0

/-- Witness for the amended claim C6 on a two-step January/February
series. -/
theorem C6_amended_witness :
    ([1, 1] : List ℚ).length = ([2, 5] : List ℚ).length
    ∧ ([1, 2] : List ℕ).length = ([2, 5] : List ℚ).length
    ∧ (∀ x ∈ ([1, 2] : List ℕ), 1 ≤ x ∧ x ≤ 12)
    ∧ 0 < 12
    ∧ ((computeMonthlyPeaks ([2, 5] : List ℚ) [1, 1] [1, 2]).getD 0 0
        = specMonthlyPeakEnergy ([2, 5] : List ℚ) [1, 1] [1, 2] 0
      ∧ 0 ≤ (computeMonthlyPeaks ([2, 5] : List ℚ) [1, 1] [1, 2]).getD 0 0) :=
  ⟨rfl, rfl, by decide, by decide,
    C6_amended ([2, 5] : List ℚ) [1, 1] [1, 2] rfl rfl (by decide) 0
      (by decide)⟩

/-- Claim C6, counterexample.  On a single quarter-hourly step with
`load − pv = 1 kWh`, the claimed peak `max(load−pv,0)/Δt = 1/0.25 = 4 kW`
differs from the computed peak, which keeps the per-step energy `1`
un-divided. -/
theorem C6_counterexample :
    (computeMonthlyPeaks ([1] : List ℚ) [0] [1]).getD 0 0 = 1
    ∧ specMonthlyPeakKw ([1] : List ℚ) [0] [1] (1/4) 0 = 4
    ∧ (computeMonthlyPeaks ([1] : List ℚ) [0] [1]).getD 0 0
        ≠ specMonthlyPeakKw ([1] : List ℚ) [0] [1] (1/4) 0 := by
  refine ⟨?_, ?_, ?_⟩ <;>
    norm_num [computeMonthlyPeaks, specMonthlyPeakKw, List.range_succ,
      List.getD]
